import Mathlib

/-!
Shallow embedding of the Toshi shard identity model
(src/toshi-server/src/cluster/shard.rs) and of the summary/flush handlers
(src/toshi-server/src/handlers/summary.rs), with theorems settling the
frozen claims about the specification.
-/

namespace Toshi

/-- The single error kind of the core, `Error::IOError(message)` from
toshi_types, as used by shard.rs and summary.rs. -/
inductive Error where
  | IOError : String → Error
  deriving DecidableEq, Repr

/-- A 128-bit shard identifier; uuid::Uuid values are modelled as naturals.
Uuid::new_v4 is external randomness, so constructors take the fresh id as a
parameter. -/
abbrev Uuid := Nat

/-- Committed index metadata (document counts, segment info); its exact
shape is external to the core, modelled as an abstract counter record. -/
structure IndexMeta where
  docCount : Nat
  deriving DecidableEq, Repr

/-- Modelled from the spec: the Index Handle type `LocalIndex` lives in
src/toshi-server/src/handle.rs, which is not under src/. Per the spec it
holds a name fixed at attach time, committed metadata, buffered
uncommitted writes, a storage footprint in bytes, and a commit-capable
writer; load_metas and commit can fail with an engine-reported message,
modelled as optional pending failure messages of the underlying engine. -/
structure LocalIndex where
  name : String
  committed : IndexMeta
  buffered : IndexMeta
  space : Nat
  loadErr : Option String
  commitErr : Option String
  deriving DecidableEq, Repr

/-- Source: `handle.get_name()` returns the index name fixed at attach time. -/
def LocalIndex.get_name (h : LocalIndex) : String :=
  h.name

/-- Modelled from the spec: `load_metas()` returns currently committed
metadata, or fails with an IOError carrying the engine-reported message. -/
def LocalIndex.load_metas (h : LocalIndex) : Except Error IndexMeta :=
  match h.loadErr with
  | some m => .error (.IOError m)
  | none => .ok h.committed

/-- Modelled from the spec: `get_space()` is the storage footprint in bytes. -/
def LocalIndex.get_space (h : LocalIndex) : Nat :=
  h.space

/-- Modelled from the spec: `commit()` flushes buffered writes durably into
the committed state, or fails with IOError leaving the prior committed
state intact. Returns the outcome together with the handle state after. -/
def LocalIndex.commitWriter (h : LocalIndex) : Except Error Unit × LocalIndex :=
  match h.commitErr with
  | some m => (.error (.IOError m), h)
  | none => (.ok (), { h with committed := h.buffered })

/-- The physical index engine (tantivy::Index) is opened externally and
handed in; whether opening a handle over it succeeds, and the state it
exposes, are properties of the engine value. -/
structure Engine where
  openErr : Option String
  committedMeta : IndexMeta
  bufferedMeta : IndexMeta
  spaceBytes : Nat
  loadFailure : Option String
  commitFailure : Option String
  deriving DecidableEq, Repr

/-- Default engine configuration (Settings::default from settings.rs, not
under src/): a fixed configuration value with no content relevant here. -/
structure Settings where
  deriving DecidableEq, Repr

/-- Source: `Settings::default()`. -/
def Settings.mkDefault : Settings := {}

/-- The handle state exposed once this engine is opened under `n`: name
fixed at attach time, the rest determined by the engine. -/
def Engine.attachedHandle (eng : Engine) (n : String) : LocalIndex :=
  { name := n, committed := eng.committedMeta, buffered := eng.bufferedMeta,
    space := eng.spaceBytes, loadErr := eng.loadFailure,
    commitErr := eng.commitFailure }

/-- Modelled from the spec: `LocalIndex::new(index, settings, name)` from
src/toshi-server/src/handle.rs, not under src/. It attaches a handle over
the given engine for this name under the given settings, failing when the
engine cannot be opened; on success the handle carries exactly this name. -/
def LocalIndex.new (index : Engine) (_settings : Settings) (name : String) :
    Except String LocalIndex :=
  match index.openErr with
  | some e => .error e
  | none => .ok (index.attachedHandle name)

/-- Source shard.rs lines 20-25: a PrimaryShard is a writable partition of
an Index; the serde derive skips index_handle in both directions. -/
structure PrimaryShard where
  shard_id : Uuid
  index_handle : Option LocalIndex
  deriving DecidableEq, Repr

/-- Source shard.rs lines 28-34: a ReplicaShard is a read-only copy of a
specific PrimaryShard. -/
structure ReplicaShard where
  shard_id : Uuid
  primary_shard_id : Uuid
  index_handle : Option LocalIndex
  deriving DecidableEq, Repr

/-- Source: `PrimaryShard::default()`, with the fresh random Uuid passed
in as a parameter. -/
def PrimaryShard.mkDefault (fresh : Uuid) : PrimaryShard :=
  { shard_id := fresh, index_handle := none }

/-- Source: `PrimaryShard::new()` delegates to default. -/
def PrimaryShard.new (fresh : Uuid) : PrimaryShard :=
  PrimaryShard.mkDefault fresh

/-- Source shard.rs lines 43-52: `PrimaryShard::with_index` builds a
LocalIndex over the engine under default settings and attaches it, or
fails with IOError carrying the open failure description. -/
def PrimaryShard.with_index (s : PrimaryShard) (index : Engine) (name : String) :
    Except Error PrimaryShard :=
  let settings := Settings.mkDefault
  match LocalIndex.new index settings name with
  | .ok lh => .ok { s with index_handle := some lh }
  | .error e => .error (.IOError e)

/-- Source shard.rs line 66: returns the UUID for this shard. -/
def PrimaryShard.shardId (s : PrimaryShard) : Uuid :=
  s.shard_id

/-- Source shard.rs lines 71-73: not a replica, so None. -/
def PrimaryShard.primaryShardId (_s : PrimaryShard) : Option Uuid :=
  none

/-- Source shard.rs lines 76-78. -/
def PrimaryShard.is_primary (_s : PrimaryShard) : Bool :=
  true

/-- Source shard.rs lines 81-86: name of the attached handle, or IOError. -/
def PrimaryShard.index_name (s : PrimaryShard) : Except Error String :=
  match s.index_handle with
  | some handle => .ok handle.get_name
  | none => .error (.IOError "Unable to get index handle")

/-- Source shard.rs lines 91-97: `ReplicaShard::new(primary_shard_id)`,
with the fresh random Uuid for the replica itself passed as a parameter. -/
def ReplicaShard.new (primary_shard_id : Uuid) (fresh : Uuid) : ReplicaShard :=
  { primary_shard_id := primary_shard_id, shard_id := fresh, index_handle := none }

/-- Source shard.rs lines 100-109: same attach logic as the primary. -/
def ReplicaShard.with_index (s : ReplicaShard) (index : Engine) (name : String) :
    Except Error ReplicaShard :=
  let settings := Settings.mkDefault
  match LocalIndex.new index settings name with
  | .ok lh => .ok { s with index_handle := some lh }
  | .error e => .error (.IOError e)

/-- Source shard.rs line 114. -/
def ReplicaShard.shardId (s : ReplicaShard) : Uuid :=
  s.shard_id

/-- Source shard.rs lines 120-122: the id of the shard it replicates. -/
def ReplicaShard.primaryShardId (s : ReplicaShard) : Option Uuid :=
  some s.primary_shard_id

/-- Source shard.rs lines 125-127. -/
def ReplicaShard.is_primary (_s : ReplicaShard) : Bool :=
  false

/-- Source shard.rs lines 130-135: name of the attached handle, or IOError. -/
def ReplicaShard.index_name (s : ReplicaShard) : Except Error String :=
  match s.index_handle with
  | some handle => .ok handle.get_name
  | none => .error (.IOError "No index with that name exists")

/-- Serialized form of a PrimaryShard: the serde attributes
skip_serializing and skip_deserializing on index_handle mean the wire
record carries only shard_id. -/
structure PrimaryShardSer where
  shard_id : Uuid
  deriving DecidableEq, Repr

/-- Serialized form of a ReplicaShard: only the two ids are carried. -/
structure ReplicaShardSer where
  shard_id : Uuid
  primary_shard_id : Uuid
  deriving DecidableEq, Repr

/-- Serde serialization of a PrimaryShard: index_handle is skipped. -/
def PrimaryShard.serialize (s : PrimaryShard) : PrimaryShardSer :=
  { shard_id := s.shard_id }

/-- Serde deserialization of a PrimaryShard: the skipped index_handle
field is filled with its Default value, None. -/
def PrimaryShard.deserialize (w : PrimaryShardSer) : PrimaryShard :=
  { shard_id := w.shard_id, index_handle := none }

/-- Serde serialization of a ReplicaShard: index_handle is skipped. -/
def ReplicaShard.serialize (s : ReplicaShard) : ReplicaShardSer :=
  { shard_id := s.shard_id, primary_shard_id := s.primary_shard_id }

/-- Serde deserialization of a ReplicaShard: index_handle becomes None. -/
def ReplicaShard.deserialize (w : ReplicaShardSer) : ReplicaShard :=
  { shard_id := w.shard_id, primary_shard_id := w.primary_shard_id,
    index_handle := none }

/-- Modelled from the spec: the Catalog (IndexCatalog from
src/toshi-server/src/index.rs, not under src/) owns a mapping from index
name to its attached handle, scoped to the local node; modelled as an
association list keyed by name. -/
def IndexCatalog := List (String × LocalIndex)

instance : DecidableEq IndexCatalog := by
  unfold IndexCatalog
  infer_instance

/-- Modelled from the spec: `exists(name)` performs an in-memory lookup
under the Catalog lock. The source method is named `exists`, a reserved
word in Lean. -/
def IndexCatalog.existsIdx (cat : IndexCatalog) (name : String) : Bool :=
  (cat.lookup name).isSome

/-- Modelled from the spec: `get_index(name)` is the Catalog map lookup. -/
def IndexCatalog.get_index (cat : IndexCatalog) (name : String) :
    Option LocalIndex :=
  cat.lookup name

/-- The Catalog entry for `name` after its handle mutated under the
writer lock; other entries are untouched. -/
def IndexCatalog.updateIdx (cat : IndexCatalog) (name : String)
    (h : LocalIndex) : IndexCatalog :=
  cat.map fun p => if p.1 = name then (p.1, h) else p

/-- Source router.rs (not under src/), per the spec: QueryOptions has one
relevant option, include_sizes, absent by default. -/
structure QueryOptions where
  include_sizes : Option Bool
  deriving DecidableEq, Repr

/-- Modelled from the spec: `options.include_sizes()` with default false
when the option is absent. -/
def QueryOptions.includeSizes (o : QueryOptions) : Bool :=
  o.include_sizes.getD false

/-- SummaryResponse::new(metas, size) from toshi_types: committed
metadata plus an optional storage footprint. -/
structure SummaryResponse where
  metas : IndexMeta
  size : Option Nat
  deriving DecidableEq, Repr

/-- The body of an HTTP response built by the handlers: empty, a
SummaryResponse JSON body, or an error body carrying an Error value. -/
inductive Body where
  | empty : Body
  | summary : SummaryResponse → Body
  | err : Error → Body
  deriving DecidableEq, Repr

/-- An HTTP response: status code and body. -/
structure Response where
  status : Nat
  body : Body
  deriving DecidableEq, Repr

/-- Source utils.rs (not under src/), per the spec interface table:
with_body builds a 200 response carrying the serialized value. -/
def with_body (s : SummaryResponse) : Response :=
  { status := 200, body := .summary s }

/-- Source utils.rs (not under src/), per the spec interface table:
empty_with_code builds a response with the given status and empty body. -/
def empty_with_code (code : Nat) : Response :=
  { status := code, body := .empty }

/-- Modelled from the spec: `Response::from(err)` produces a generic
failure response carrying the error message as its body. -/
def Response.fromError (e : Error) : Response :=
  { status := 400, body := .err e }

/-- Outcome of running a handler body: either a returned response, or a
panic raised by an `unwrap()` on a failed result, carrying that error. -/
inductive HOutcome where
  | ok : Response → HOutcome
  | panicked : Error → HOutcome
  deriving DecidableEq, Repr

/-- Source summary.rs lines 13-35, `index_summary`: under the Catalog
lock, if the index exists, unwrap get_index, unwrap load_metas, and build
a SummaryResponse whose size field is present exactly when include_sizes
is set; otherwise answer with an Error::IOError naming the missing index.
The unwrap calls panic when the unwrapped result is a failure. -/
def index_summary (catalog : IndexCatalog) (index : String)
    (options : QueryOptions) : HOutcome :=
  if catalog.existsIdx index then
    match catalog.get_index index with
    | none => .panicked (.IOError "called unwrap on a None value")
    | some handle =>
        match handle.load_metas with
        | .error e => .panicked e
        | .ok metas =>
            let summary :=
              if options.includeSizes then
                SummaryResponse.mk metas (some handle.get_space)
              else
                SummaryResponse.mk metas none
            .ok (with_body summary)
  else
    .ok (Response.fromError
      (.IOError ("Index " ++ index ++ " does not exist")))

/-- Source summary.rs lines 37-53, `flush`: under the Catalog lock, if
the index exists, unwrap get_index, take the writer lock, and unwrap
commit, answering 200 with empty body; otherwise answer 404 with empty
body. Returns the outcome together with the Catalog state after: commit
success moves the buffered writes into the committed state, commit
failure panics through unwrap and leaves the committed state intact. -/
def flush (catalog : IndexCatalog) (index : String) :
    HOutcome × IndexCatalog :=
  if catalog.existsIdx index then
    match catalog.get_index index with
    | none => (.panicked (.IOError "called unwrap on a None value"), catalog)
    | some local_index =>
        match local_index.commitWriter with
        | (.ok _, h) => (.ok (empty_with_code 200), catalog.updateIdx index h)
        | (.error e, _) => (.panicked e, catalog)
  else
    (.ok (empty_with_code 404), catalog)

/-- Lock and engine-call events performed by a handler, in program
order, used to reason about which calls run while the Catalog lock is
held. -/
inductive Ev where
  | acquireCatalog : Ev
  | releaseCatalog : Ev
  | acquireWriter : String → Ev
  | releaseWriter : String → Ev
  | commitCall : String → Ev
  | loadMetasCall : String → Ev
  | getSpaceCall : String → Ev
  deriving DecidableEq, Repr

/-- Event trace of the flush handler, from the source control flow:
`catalog.lock().await` acquires the Catalog lock; the guard index_lock is
a local variable never dropped early, so by scope-based drop order the
writer guard and then the Catalog guard are released only at the end of
the branch, after `write.commit()` has run. -/
def flushEvents (catalog : IndexCatalog) (index : String) : List Ev :=
  Ev.acquireCatalog ::
    (if catalog.existsIdx index then
      [Ev.acquireWriter index, Ev.commitCall index,
       Ev.releaseWriter index, Ev.releaseCatalog]
    else
      [Ev.releaseCatalog])

/-- Event trace of the summary handler, from the source control flow: the
guard index_lock lives to the end of the function, so `load_metas()` and
the optional `get_space()` run before the Catalog lock is released. -/
def summaryEvents (catalog : IndexCatalog) (index : String)
    (options : QueryOptions) : List Ev :=
  Ev.acquireCatalog ::
    (if catalog.existsIdx index then
      (Ev.loadMetasCall index ::
        (if options.includeSizes then [Ev.getSpaceCall index] else []) ++
        [Ev.releaseCatalog])
    else
      [Ev.releaseCatalog])

/-- Whether some event satisfying `p` occurs at a point of the trace
where the Catalog lock is held; the boolean accumulator tracks the lock
state reached so far. -/
def occursWhileCatalogHeld (p : Ev → Bool) : List Ev → Bool → Bool
  | [], _ => false
  | Ev.acquireCatalog :: rest, _ => occursWhileCatalogHeld p rest true
  | Ev.releaseCatalog :: rest, _ => occursWhileCatalogHeld p rest false
  | e :: rest, held => (held && p e) || occursWhileCatalogHeld p rest held

/-- The commit call of a flush runs while the Catalog lock is held. -/
def commitWhileCatalogHeld (catalog : IndexCatalog) (index : String) : Bool :=
  occursWhileCatalogHeld
    (fun e => match e with | Ev.commitCall _ => true | _ => false)
    (flushEvents catalog index) false

/-- A metadata or space read of a summary runs while the Catalog lock is
held. -/
def readWhileCatalogHeld (catalog : IndexCatalog) (index : String)
    (options : QueryOptions) : Bool :=
  occursWhileCatalogHeld
    (fun e => match e with
      | Ev.loadMetasCall _ => true
      | Ev.getSpaceCall _ => true
      | _ => false)
    (summaryEvents catalog index options) false

/-- The handler outcome carries an Error::IOError value in its response
body. -/
def carriesIOErrorBody : HOutcome → Bool
  | .ok r =>
      match r.body with
      | .err (.IOError _) => true
      | _ => false
  | .panicked _ => false

/-- A concrete healthy engine used to instantiate theorems. -/
def demoEngine : Engine :=
  { openErr := none, committedMeta := ⟨5⟩, bufferedMeta := ⟨7⟩,
    spaceBytes := 100, loadFailure := none, commitFailure := none }

/-- A concrete engine whose open fails. -/
def brokenEngine : Engine :=
  { demoEngine with openErr := some "failed to open segment files" }

/-- The handle obtained by attaching demoEngine under the name test_index. -/
def demoHandle : LocalIndex :=
  { name := "test_index", committed := ⟨5⟩, buffered := ⟨7⟩, space := 100,
    loadErr := none, commitErr := none }

/-- A one-entry Catalog hosting test_index. -/
def demoCatalog : IndexCatalog := [("test_index", demoHandle)]

/-- The empty Catalog. -/
def emptyCatalog : IndexCatalog := []

/-- demoHandle whose engine reports a commit failure. -/
def failingCommitHandle : LocalIndex :=
  { demoHandle with commitErr := some "disk full" }

/-- A Catalog hosting test_index with a failing commit path. -/
def failingCommitCatalog : IndexCatalog := [("test_index", failingCommitHandle)]

/-- demoHandle whose engine reports a metadata load failure. -/
def failingLoadHandle : LocalIndex :=
  { demoHandle with loadErr := some "metadata corrupted" }

/-- A Catalog hosting test_index with a failing load_metas path. -/
def failingLoadCatalog : IndexCatalog := [("test_index", failingLoadHandle)]

/-- The primary shard with id 1 after with_index over demoEngine. -/
def demoPrimary : PrimaryShard :=
  { shard_id := 1, index_handle := some demoHandle }

/-- The replica of shard 1, with id 2, after with_index over demoEngine. -/
def demoReplica : ReplicaShard :=
  { shard_id := 2, primary_shard_id := 1, index_handle := some demoHandle }

/-- Characterization of a successful PrimaryShard::with_index: the engine
opened, and the result is the same identity now carrying the handle that
LocalIndex::new built for this name over this engine. -/
theorem primary_with_index_ok (p p' : PrimaryShard) (eng : Engine) (n : String)
    (hw : p.with_index eng n = .ok p') :
    eng.openErr = none ∧
      p' = { p with index_handle := some (eng.attachedHandle n) } := by
  unfold PrimaryShard.with_index LocalIndex.new at hw
  cases hopen : eng.openErr with
  | some e => rw [hopen] at hw; simp at hw
  | none => rw [hopen] at hw; simp at hw; exact ⟨rfl, hw.symm⟩

/-- Characterization of a failed PrimaryShard::with_index: when the
engine cannot be opened, the result is an IOError carrying the open
failure description. -/
theorem primary_with_index_err (p : PrimaryShard) (eng : Engine) (n e : String)
    (hopen : eng.openErr = some e) :
    p.with_index eng n = .error (.IOError e) := by
  unfold PrimaryShard.with_index LocalIndex.new
  rw [hopen]

/-- Characterization of a successful ReplicaShard::with_index. -/
theorem replica_with_index_ok (r r' : ReplicaShard) (eng : Engine) (n : String)
    (hw : r.with_index eng n = .ok r') :
    eng.openErr = none ∧
      r' = { r with index_handle := some (eng.attachedHandle n) } := by
  unfold ReplicaShard.with_index LocalIndex.new at hw
  cases hopen : eng.openErr with
  | some e => rw [hopen] at hw; simp at hw
  | none => rw [hopen] at hw; simp at hw; exact ⟨rfl, hw.symm⟩

/-- Characterization of a failed ReplicaShard::with_index. -/
theorem replica_with_index_err (r : ReplicaShard) (eng : Engine) (n e : String)
    (hopen : eng.openErr = some e) :
    r.with_index eng n = .error (.IOError e) := by
  unfold ReplicaShard.with_index LocalIndex.new
  rw [hopen]

/-- C4: a shard with no attached handle answers index_name with an
IOError whose message is Unable to get index handle for a primary and No
index with that name exists for a replica, and after a successful
with_index over an engine under the name n, index_name answers exactly n. -/
theorem c4_index_name_contract :
    (∀ p : PrimaryShard, p.index_handle = none →
      p.index_name = .error (.IOError "Unable to get index handle")) ∧
    (∀ r : ReplicaShard, r.index_handle = none →
      r.index_name = .error (.IOError "No index with that name exists")) ∧
    (∀ (p : PrimaryShard) (eng : Engine) (n : String) (p' : PrimaryShard),
      p.with_index eng n = .ok p' → p'.index_name = .ok n) ∧
    (∀ (r : ReplicaShard) (eng : Engine) (n : String) (r' : ReplicaShard),
      r.with_index eng n = .ok r' → r'.index_name = .ok n) := by
  refine ⟨?_, ?_, ?_, ?_⟩
  · intro p hp
    simp [PrimaryShard.index_name, hp]
  · intro r hr
    simp [ReplicaShard.index_name, hr]
  · intro p eng n p' hw
    obtain ⟨-, rfl⟩ := primary_with_index_ok p p' eng n hw
    rfl
  · intro r eng n r' hw
    obtain ⟨-, rfl⟩ := replica_with_index_ok r r' eng n hw
    rfl

/-- Witness for C4 at concrete shards: fresh shards with no handle, and
the shards produced by with_index over demoEngine under test_index. -/
theorem c4_witness :
    (PrimaryShard.new 1).index_name =
        .error (.IOError "Unable to get index handle") ∧
    (ReplicaShard.new 1 2).index_name =
        .error (.IOError "No index with that name exists") ∧
    demoPrimary.index_name = .ok "test_index" ∧
    demoReplica.index_name = .ok "test_index" := by
  refine ⟨?_, ?_, ?_, ?_⟩
  · exact c4_index_name_contract.1 (PrimaryShard.new 1) rfl
  · exact c4_index_name_contract.2.1 (ReplicaShard.new 1 2) rfl
  · exact c4_index_name_contract.2.2.1 (PrimaryShard.new 1) demoEngine
      "test_index" demoPrimary rfl
  · exact c4_index_name_contract.2.2.2 (ReplicaShard.new 1 2) demoEngine
      "test_index" demoReplica rfl

/-- C7: every PrimaryShard reports is_primary true and an absent primary
id; every ReplicaShard reports is_primary false, and one built by new
over a primary id reports exactly that id. -/
theorem c7_role_accessors :
    (∀ p : PrimaryShard, p.is_primary = true ∧ p.primaryShardId = none) ∧
    (∀ r : ReplicaShard, r.is_primary = false) ∧
    (∀ pid fresh : Uuid,
      (ReplicaShard.new pid fresh).primaryShardId = some pid) := by
  exact ⟨fun p => ⟨rfl, rfl⟩, fun r => rfl, fun pid fresh => rfl⟩

/-- C8: with_index fails with an IOError carrying the open failure
description when the engine cannot be opened, producing no shard and
hence no attached handle; when the engine opens it returns the same
identity now carrying the attached handle; both constructors produce
shards with no handle, so only with_index ever attaches one. -/
theorem c8_with_index_contract :
    (∀ (p : PrimaryShard) (eng : Engine) (n e : String),
      eng.openErr = some e → p.with_index eng n = .error (.IOError e)) ∧
    (∀ (r : ReplicaShard) (eng : Engine) (n e : String),
      eng.openErr = some e → r.with_index eng n = .error (.IOError e)) ∧
    (∀ (p : PrimaryShard) (eng : Engine) (n : String),
      eng.openErr = none →
      p.with_index eng n =
        .ok { p with index_handle := some (eng.attachedHandle n) }) ∧
    (∀ (r : ReplicaShard) (eng : Engine) (n : String),
      eng.openErr = none →
      r.with_index eng n =
        .ok { r with index_handle := some (eng.attachedHandle n) }) ∧
    (∀ fresh : Uuid, (PrimaryShard.new fresh).index_handle = none) ∧
    (∀ pid fresh : Uuid, (ReplicaShard.new pid fresh).index_handle = none) := by
  refine ⟨?_, ?_, ?_, ?_, ?_, ?_⟩
  · exact fun p eng n e h => primary_with_index_err p eng n e h
  · exact fun r eng n e h => replica_with_index_err r eng n e h
  · intro p eng n h
    simp [PrimaryShard.with_index, LocalIndex.new, h]
  · intro r eng n h
    simp [ReplicaShard.with_index, LocalIndex.new, h]
  · exact fun fresh => rfl
  · exact fun pid fresh => rfl

/-- Witness for C8 at a broken and a healthy engine. -/
theorem c8_witness :
    (PrimaryShard.new 1).with_index brokenEngine "test_index" =
        .error (.IOError "failed to open segment files") ∧
    (PrimaryShard.new 1).with_index demoEngine "test_index" =
        .ok demoPrimary ∧
    (PrimaryShard.new 1).index_handle = none := by
  refine ⟨?_, ?_, ?_⟩
  · exact c8_with_index_contract.1 (PrimaryShard.new 1) brokenEngine
      "test_index" "failed to open segment files" rfl
  · exact c8_with_index_contract.2.2.1 (PrimaryShard.new 1) demoEngine
      "test_index" rfl
  · exact c8_with_index_contract.2.2.2.2.1 1

/-- C9: serializing then deserializing a shard keeps shard_id and, for a
replica, primary_shard_id, and yields no attached handle; the serialized
form of any shard equals that of the same shard with its handle removed,
so the handle is never part of the serialized form. -/
theorem c9_serialization_round_trip :
    (∀ s : PrimaryShard,
      (PrimaryShard.deserialize s.serialize).shard_id = s.shard_id ∧
      (PrimaryShard.deserialize s.serialize).index_handle = none ∧
      s.serialize = PrimaryShard.serialize { s with index_handle := none }) ∧
    (∀ s : ReplicaShard,
      (ReplicaShard.deserialize s.serialize).shard_id = s.shard_id ∧
      (ReplicaShard.deserialize s.serialize).primary_shard_id =
          s.primary_shard_id ∧
      (ReplicaShard.deserialize s.serialize).index_handle = none ∧
      s.serialize = ReplicaShard.serialize { s with index_handle := none }) := by
  exact ⟨fun s => ⟨rfl, rfl, rfl⟩, fun s => ⟨rfl, rfl, rfl, rfl⟩⟩

/-- C10: with_index touches only index_handle: a successful call keeps
shard_id, and for a replica also primary_shard_id, unchanged; a failed
call returns only the IOError, no identity at all. -/
theorem c10_with_index_frame :
    (∀ (p : PrimaryShard) (eng : Engine) (n : String) (p' : PrimaryShard),
      p.with_index eng n = .ok p' → p'.shard_id = p.shard_id) ∧
    (∀ (r : ReplicaShard) (eng : Engine) (n : String) (r' : ReplicaShard),
      r.with_index eng n = .ok r' →
        r'.shard_id = r.shard_id ∧
        r'.primary_shard_id = r.primary_shard_id) ∧
    (∀ (p : PrimaryShard) (eng : Engine) (n e : String),
      eng.openErr = some e → p.with_index eng n = .error (.IOError e)) ∧
    (∀ (r : ReplicaShard) (eng : Engine) (n e : String),
      eng.openErr = some e → r.with_index eng n = .error (.IOError e)) := by
  refine ⟨?_, ?_, ?_, ?_⟩
  · intro p eng n p' hw
    obtain ⟨-, rfl⟩ := primary_with_index_ok p p' eng n hw
    rfl
  · intro r eng n r' hw
    obtain ⟨-, rfl⟩ := replica_with_index_ok r r' eng n hw
    exact ⟨rfl, rfl⟩
  · exact fun p eng n e h => primary_with_index_err p eng n e h
  · exact fun r eng n e h => replica_with_index_err r eng n e h

/-- Witness for C10 at demoEngine and brokenEngine. -/
theorem c10_witness :
    demoPrimary.shard_id = (PrimaryShard.new 1).shard_id ∧
    demoReplica.shard_id = (ReplicaShard.new 1 2).shard_id ∧
    demoReplica.primary_shard_id = (ReplicaShard.new 1 2).primary_shard_id ∧
    (ReplicaShard.new 1 2).with_index brokenEngine "test_index" =
      .error (.IOError "failed to open segment files") := by
  refine ⟨?_, ?_, ?_, ?_⟩
  · exact c10_with_index_frame.1 (PrimaryShard.new 1) demoEngine
      "test_index" demoPrimary rfl
  · exact (c10_with_index_frame.2.1 (ReplicaShard.new 1 2) demoEngine
      "test_index" demoReplica rfl).1
  · exact (c10_with_index_frame.2.1 (ReplicaShard.new 1 2) demoEngine
      "test_index" demoReplica rfl).2
  · exact c10_with_index_frame.2.2.2 (ReplicaShard.new 1 2) brokenEngine
      "test_index" "failed to open segment files" rfl

/-- C1: evaluation of the handler lock traces at a Catalog hosting
test_index: the commit call of flush, and the metadata and space reads of
summary, all run while the Catalog lock is held, because the source keeps
the guard index_lock alive to the end of the handler scope; hence flush
or summary operations on different index names do contend on the Catalog
lock, contrary to the claim. -/
theorem c1_catalog_lock_held_across_commit :
    commitWhileCatalogHeld demoCatalog "test_index" = true ∧
    readWhileCatalogHeld demoCatalog "test_index"
      { include_sizes := some true } = true ∧
    readWhileCatalogHeld demoCatalog "test_index"
      { include_sizes := none } = true := by
  exact ⟨rfl, rfl, rfl⟩

/-- C2: at a Catalog hosting test_index over an engine whose commit,
respectively metadata load, fails, the handlers panic through unwrap,
carrying the engine failure, instead of answering with an IOError error
response, contrary to the claim. -/
theorem c2_engine_failure_panics_not_surfaced :
    flush failingCommitCatalog "test_index" =
      (.panicked (.IOError "disk full"), failingCommitCatalog) ∧
    index_summary failingLoadCatalog "test_index" { include_sizes := none } =
      .panicked (.IOError "metadata corrupted") := by
  exact ⟨rfl, rfl⟩

/-- C3 counterexample: on the empty Catalog, the summary operation for
the name missing represents the missing-index condition as an
Error::IOError value in the response body, so the condition is not kept
distinct from IOError as the claim states. -/
theorem c3_counterexample_summary_miss_is_ioerror :
    index_summary emptyCatalog "missing" { include_sizes := none } =
      .ok { status := 400,
            body := .err (.IOError "Index missing does not exist") } ∧
    carriesIOErrorBody
      (index_summary emptyCatalog "missing" { include_sizes := none }) =
        true := by
  exact ⟨rfl, rfl⟩

/-- C3 amended: flush keeps the missing-index condition distinct from
IOError, answering 404 with an empty body carrying no error value, but
the summary operation represents the missing-index condition as an
Error::IOError value carrying the message naming the missing index. -/
theorem c3_not_found_representation :
    (∀ (cat : IndexCatalog) (index : String),
      cat.existsIdx index = false →
      flush cat index = (.ok (empty_with_code 404), cat) ∧
      carriesIOErrorBody (flush cat index).1 = false) ∧
    (∀ (cat : IndexCatalog) (index : String) (options : QueryOptions),
      cat.existsIdx index = false →
      index_summary cat index options =
        .ok (Response.fromError
          (.IOError ("Index " ++ index ++ " does not exist"))) ∧
      carriesIOErrorBody (index_summary cat index options) = true) := by
  constructor
  · intro cat index hex
    have hf : flush cat index = (.ok (empty_with_code 404), cat) := by
      simp [flush, hex]
    exact ⟨hf, by rw [hf]; rfl⟩
  · intro cat index options hex
    have hs : index_summary cat index options =
        .ok (Response.fromError
          (.IOError ("Index " ++ index ++ " does not exist"))) := by
      simp [index_summary, hex]
    exact ⟨hs, by rw [hs]; rfl⟩

/-- Witness for the amended C3 at the empty Catalog and the name missing. -/
theorem c3_witness :
    (flush emptyCatalog "missing" = (.ok (empty_with_code 404), emptyCatalog) ∧
      carriesIOErrorBody (flush emptyCatalog "missing").1 = false) ∧
    (index_summary emptyCatalog "missing" { include_sizes := none } =
        .ok (Response.fromError
          (.IOError "Index missing does not exist")) ∧
      carriesIOErrorBody
        (index_summary emptyCatalog "missing" { include_sizes := none }) =
          true) := by
  constructor
  · exact c3_not_found_representation.1 emptyCatalog "missing" rfl
  · exact c3_not_found_representation.2 emptyCatalog "missing"
      { include_sizes := none } rfl

/-- C5: when the index is hosted and its committed metadata loads, the
summary answer carries the committed metadata and has a size field
exactly when include_sizes is set; when the index is absent, the answer
is an error whose message is exactly Index NAME does not exist for that
name. -/
theorem c5_summary_contract :
    (∀ (cat : IndexCatalog) (index : String) (options : QueryOptions)
        (h : LocalIndex) (m : IndexMeta),
      cat.get_index index = some h → h.load_metas = .ok m →
      index_summary cat index options =
        .ok (with_body
          { metas := m,
            size := if options.includeSizes then some h.get_space
                    else none })) ∧
    (∀ (cat : IndexCatalog) (index : String) (options : QueryOptions),
      cat.existsIdx index = false →
      index_summary cat index options =
        .ok (Response.fromError
          (.IOError ("Index " ++ index ++ " does not exist")))) := by
  constructor
  · intro cat index options h m hget hload
    have hex : cat.existsIdx index = true := by
      unfold IndexCatalog.existsIdx
      unfold IndexCatalog.get_index at hget
      rw [hget]
      rfl
    cases hio : options.includeSizes <;>
      simp [index_summary, hex, hget, hload, hio]
  · intro cat index options hex
    simp [index_summary, hex]

/-- Witness for C5 at the one-entry Catalog hosting test_index. -/
theorem c5_witness :
    index_summary demoCatalog "test_index" { include_sizes := some true } =
      .ok (with_body { metas := ⟨5⟩, size := some 100 }) ∧
    index_summary demoCatalog "test_index" { include_sizes := none } =
      .ok (with_body { metas := ⟨5⟩, size := none }) ∧
    index_summary emptyCatalog "another" { include_sizes := none } =
      .ok (Response.fromError (.IOError "Index another does not exist")) := by
  refine ⟨?_, ?_, ?_⟩
  · exact c5_summary_contract.1 demoCatalog "test_index"
      { include_sizes := some true } demoHandle ⟨5⟩ rfl rfl
  · exact c5_summary_contract.1 demoCatalog "test_index"
      { include_sizes := none } demoHandle ⟨5⟩ rfl rfl
  · exact c5_summary_contract.2 emptyCatalog "another"
      { include_sizes := none } rfl

/-- C6: flush on a hosted index whose engine commit succeeds answers 200
with an empty body and the Catalog afterwards records the buffered writes
as committed for that entry; flush on an absent index answers 404 with an
empty body and returns the Catalog exactly unchanged. -/
theorem c6_flush_contract :
    (∀ (cat : IndexCatalog) (index : String) (h : LocalIndex),
      cat.get_index index = some h → h.commitErr = none →
      flush cat index =
        (.ok (empty_with_code 200),
          cat.updateIdx index { h with committed := h.buffered })) ∧
    (∀ (cat : IndexCatalog) (index : String),
      cat.existsIdx index = false →
      flush cat index = (.ok (empty_with_code 404), cat)) := by
  constructor
  · intro cat index h hget hcommit
    have hex : cat.existsIdx index = true := by
      unfold IndexCatalog.existsIdx
      unfold IndexCatalog.get_index at hget
      rw [hget]
      rfl
    simp [flush, hex, hget, LocalIndex.commitWriter, hcommit]
  · intro cat index hex
    simp [flush, hex]

/-- Witness for C6 at the one-entry Catalog hosting test_index. -/
theorem c6_witness :
    flush demoCatalog "test_index" =
      (.ok (empty_with_code 200),
        [("test_index", { demoHandle with committed := ⟨7⟩ })]) ∧
    flush emptyCatalog "missing" =
      (.ok (empty_with_code 404), emptyCatalog) := by
  constructor
  · exact c6_flush_contract.1 demoCatalog "test_index" demoHandle rfl rfl
  · exact c6_flush_contract.2 emptyCatalog "missing" rfl

end Toshi
